import Mathlib

/-!
Verification of the status-classification and flap-damping core of
`net-monitor/monitor.py`.

The monitor loop probes each target, classifies the sample, debounces the
DOWN verdict with a consecutive-failure counter, appends alert records on
effective-status transitions, rate-limits an optional Telegram dispatch with
a per-host cooldown, and persists per-host state.

Embedding conventions:
* Python strings stay `String`; statuses are the literal strings
  "UP", "DEGRADED", "DOWN", "UNKNOWN" exactly as the source compares them.
* `time.time()` values and ping latencies (Python floats) are modelled as `ℚ`;
  integer config options (results of `clamp_int`) as `ℤ`.
* A Python value that may be absent (`dict.get`) is an `Option`.
* File reads that may raise are modelled by passing the read outcome as an
  `Option` argument; the fallible Telegram HTTP call is an `Except` argument.
-/

namespace NetMonitor

/-- A raw `targets` list element that is a dict: `t.get("name")` and
`t.get("host")`, string-valued when present. A non-dict element is the
`none` case of `Option RawTarget` at the use site. -/
structure RawTarget where
  name : Option String
  host : Option String
deriving Repr, DecidableEq

/-- A normalized target `{"name": name, "host": host}` as built by
`normalize_targets`. -/
structure Target where
  name : String
  host : String
deriving Repr, DecidableEq

/-- Python `a or b` on strings: `b` when `a` is falsy (empty), else `a`. -/
def pyOrString (a b : String) : String :=
  if a = "" then b else a

/-- Python `str.strip()`: drop leading and trailing whitespace (modelled
over the character list; ASCII whitespace, which covers every string the
claims exercise). -/
def pyStrip (s : String) : String :=
  String.mk (((s.data.dropWhile Char.isWhitespace).reverse.dropWhile Char.isWhitespace).reverse)

/-- One iteration of the loop body of `normalize_targets` (monitor.py
lines 198-205): skip non-dict entries, default the name to the stripped
host when the stripped name is empty, skip entries whose stripped host is
empty. -/
def normalizeEntry (e : Option RawTarget) : Option Target :=
  match e with
  | none => none
  | some t =>
    let name := pyOrString (pyStrip (t.name.getD "")) (pyStrip (t.host.getD ""))
    let host := pyStrip (t.host.getD "")
    if host = "" then none else some ⟨name, host⟩

/-- `normalize_targets` (monitor.py lines 193-206): `cfg.get("targets")`
that is not a list (`none` here) yields `[]`; otherwise filter and map the
entries in order. -/
def normalize_targets (targets : Option (List (Option RawTarget))) : List Target :=
  match targets with
  | none => []
  | some ts => ts.filterMap normalizeEntry

/-- `classify_status` (monitor.py lines 186-191). -/
def classify_status (ok : Bool) (latency_ms : Option ℚ) (degraded_ms : ℤ) : String :=
  if ok = false then "DOWN"
  else
    match latency_ms with
    | none => "UP"
    | some l => if l ≥ (degraded_ms : ℚ) then "DEGRADED" else "UP"

/-- `clamp_int` (monitor.py lines 79-84): the argument is the outcome of
`int(x)` — `some v` when the coercion succeeds, `none` when it raises. -/
def clamp_int (x : Option ℤ) (lo hi default : ℤ) : ℤ :=
  match x with
  | some v => max lo (min hi v)
  | none => default

/-- `load_json` (monitor.py lines 61-66): the argument is the outcome of
opening and parsing the file — `some v` on success, `none` when any step
raises; the except-branch returns the default. -/
def load_json {α : Type} (readResult : Option α) (default : α) : α :=
  readResult.getD default

/-- `telegram_send` (monitor.py lines 86-94): the whole body is wrapped in
`try ... except Exception: pass`. The argument is the outcome of the HTTP
send; the wrapper swallows every failure. -/
def telegram_send (sendOutcome : Except String Unit) : Except String Unit :=
  match sendOutcome with
  | Except.ok u => Except.ok u
  | Except.error _ => Except.ok ()

/-- One persisted per-host state entry (the dict written at monitor.py
lines 316-321; fields may be absent in a hand-edited or legacy file). -/
structure StateEntry where
  status : Option String
  failures : Option ℤ
  last_seen : Option String
  last_alert_ts : Option ℚ
deriving Repr, DecidableEq

/-- `str(prev.get("status", "UNKNOWN"))` (line 260), with `prev = {}`
when the host is absent or its entry is not a dict (lines 256-258). -/
def prevStatus (e : Option StateEntry) : String :=
  match e with
  | none => "UNKNOWN"
  | some s => s.status.getD "UNKNOWN"

/-- `int(prev.get("failures", 0) or 0)` (line 261). -/
def prevFailures (e : Option StateEntry) : ℤ :=
  match e with
  | none => 0
  | some s => s.failures.getD 0

/-- `float(prev.get("last_alert_ts", 0) or 0)` (line 262): an absent
`last_alert_ts` reads as `0`. -/
def prevLastAlert (e : Option StateEntry) : ℚ :=
  match e with
  | none => 0
  | some s => s.last_alert_ts.getD 0

/-- `prev.get("last_seen", None)` (line 273). -/
def prevLastSeen (e : Option StateEntry) : Option String :=
  match e with
  | none => none
  | some s => s.last_seen

/-- The persisted state store: a JSON object keyed by host, modelled as an
association list. -/
def StateMap : Type := List (String × StateEntry)

/-- `state = load_json(STATE_PATH, {}); if not isinstance(state, dict):
state = {}` (monitor.py lines 238-240). The outer `Option` is the file
read/parse outcome, the inner `Option` is `none` when the parsed value is
not a dict. -/
def loadState (readResult : Option (Option StateMap)) : StateMap :=
  match load_json readResult (some ([] : StateMap)) with
  | none => []
  | some m => m

/-- `state.get(host, {})` (line 256) on the association-list state map. -/
def getPrev (state : StateMap) (host : String) : Option StateEntry :=
  state.lookup host

/-- The resolved options the per-target loop body reads (monitor.py
lines 218-230): `degraded_ms`, `fail_threshold` and the Telegram settings. -/
structure Config where
  degraded_ms : ℤ
  fail_threshold : ℤ
  tg_enabled : Bool
  tg_token : String
  tg_chat : String
  tg_cooldown : ℤ
deriving Repr, DecidableEq

/-- The per-cycle, per-target inputs: the ping outcome `(ok, latency)`,
the cycle's `now_iso` string and `time.time()` value `now_ts`. -/
structure CycleInput where
  ok : Bool
  latency : Option ℚ
  now_iso : String
  now_ts : ℚ
deriving Repr, DecidableEq

/-- The record `item` built at monitor.py lines 300-308; it is both the
snapshot entry for the host and the appended history line. -/
structure Item where
  name : String
  host : String
  status : String
  last_latency_ms : Option ℚ
  failures : ℤ
  last_seen : Option String
  updated_at : String
deriving Repr, DecidableEq

/-- The alert record appended at monitor.py lines 284-291; `from`/`to`
are Lean keywords, rendered `fromStatus`/`toStatus`. -/
structure AlertRecord where
  ts : String
  name : String
  host : String
  fromStatus : String
  toStatus : String
deriving Repr, DecidableEq

/-- Everything one iteration of the per-target loop body produces:
the snapshot/history record, the new state entry, the alert record
appended to alerts.jsonl (if any), and whether a Telegram dispatch
happened. -/
structure StepResult where
  item : Item
  newEntry : StateEntry
  alert : Option AlertRecord
  dispatched : Bool
deriving Repr, DecidableEq

/-- The failure-counter update (monitor.py lines 268-272). -/
def updatedFailures (ok : Bool) (prevFail : ℤ) : ℤ :=
  if ok then 0 else prevFail + 1

/-- The flap-damping override (monitor.py lines 277-280). The source's
conditional expression yields "DEGRADED" in both of its arms, so the
latency test there is immaterial. -/
def effectiveStatusOf (current : String) (failures fail_threshold : ℤ) : String :=
  if current = "DOWN" ∧ failures < fail_threshold then "DEGRADED" else current

/-- One iteration of the per-target loop body (monitor.py lines 252-321),
as a pure function of the config, the target, its prior state entry and
the cycle inputs. -/
def stepTarget (cfg : Config) (name host : String) (prev : Option StateEntry)
    (inp : CycleInput) : StepResult :=
  let prev_status := prevStatus prev
  let last_alert_ts0 := prevLastAlert prev
  let current_status := classify_status inp.ok inp.latency cfg.degraded_ms
  let failures := updatedFailures inp.ok (prevFailures prev)
  let last_seen := if inp.ok then some inp.now_iso else prevLastSeen prev
  let effective_status := effectiveStatusOf current_status failures cfg.fail_threshold
  let transition : Bool := (effective_status != prev_status) && (prev_status != "UNKNOWN")
  let alert : Option AlertRecord :=
    if transition then some ⟨inp.now_iso, name, host, prev_status, effective_status⟩ else none
  let dispatched : Bool :=
    transition && cfg.tg_enabled && (cfg.tg_token != "") && (cfg.tg_chat != "")
      && decide (inp.now_ts - last_alert_ts0 ≥ (cfg.tg_cooldown : ℚ))
  let last_alert_ts := if dispatched then inp.now_ts else last_alert_ts0
  let item_last_seen :=
    if inp.ok then last_seen
    else
      match prevLastSeen prev with
      | some s => if s = "" then none else some s
      | none => none
  let item : Item := ⟨name, host, effective_status, inp.latency, failures, item_last_seen, inp.now_iso⟩
  let entry : StateEntry := ⟨some effective_status, some failures, item.last_seen, some last_alert_ts⟩
  ⟨item, entry, alert, dispatched⟩

/-- A raw `telegram` config section (monitor.py lines 223-230). -/
structure RawTelegram where
  enabled : Option Bool
  bot_token : Option String
  chat_id : Option String
  cooldown_seconds : Option ℤ
deriving Repr, DecidableEq

/-- A raw top-level config dict: each recognized option as read by
`cfg.get(...)`; `telegram` is `none` when absent or not a dict. -/
structure RawConfig where
  interval_seconds : Option ℤ
  timeout_ms : Option ℤ
  degraded_ms : Option ℤ
  fail_threshold : Option ℤ
  telegram : Option RawTelegram
  targets : Option (List (Option RawTarget))
deriving Repr, DecidableEq

/-- `DEFAULT_CONFIG["telegram"]` (monitor.py lines 37-42). -/
def defaultTelegram : RawTelegram :=
  ⟨some false, some "", some "", some 60⟩

/-- `DEFAULT_CONFIG` (monitor.py lines 27-43). -/
def DEFAULT_CONFIG : RawConfig :=
  ⟨some 3, some 1200, some 120, some 2, some defaultTelegram,
   some [some ⟨some "Google DNS", some "8.8.8.8"⟩,
         some ⟨some "Cloudflare DNS", some "1.1.1.1"⟩,
         some ⟨some "Router", some "192.168.1.1"⟩]⟩

/-- `cfg = load_json(CONFIG_PATH, DEFAULT_CONFIG); if not isinstance(cfg,
dict): cfg = DEFAULT_CONFIG` (monitor.py lines 214-216). The outer
`Option` is the read outcome, the inner `none` a parsed non-dict. -/
def theConfig (readResult : Option (Option RawConfig)) : RawConfig :=
  match load_json readResult (some DEFAULT_CONFIG) with
  | none => DEFAULT_CONFIG
  | some c => c

/-- `interval = clamp_int(cfg.get("interval_seconds"), 1, 3600, 3)`
(monitor.py line 218; the default argument is `DEFAULT_CONFIG`'s 3). -/
def resolvedInterval (cfg : RawConfig) : ℤ :=
  clamp_int cfg.interval_seconds 1 3600 3

/-- `timeout_ms = clamp_int(cfg.get("timeout_ms"), 200, 10000, 1200)`
(monitor.py line 219). -/
def resolvedTimeout (cfg : RawConfig) : ℤ :=
  clamp_int cfg.timeout_ms 200 10000 1200

/-- `degraded_ms = clamp_int(cfg.get("degraded_ms"), 1, 20000, 120)`
(monitor.py line 220). -/
def resolvedDegraded (cfg : RawConfig) : ℤ :=
  clamp_int cfg.degraded_ms 1 20000 120

/-- `fail_threshold = clamp_int(cfg.get("fail_threshold"), 1, 20, 2)`
(monitor.py line 221). -/
def resolvedFailThreshold (cfg : RawConfig) : ℤ :=
  clamp_int cfg.fail_threshold 1 20 2

/-- `tg = cfg.get("telegram", {}); if not isinstance(tg, dict): tg =
DEFAULT_CONFIG["telegram"]` (monitor.py lines 223-225). An absent section
reads as `{}`, i.e. every key absent. -/
def resolvedTelegram (cfg : RawConfig) : RawTelegram :=
  cfg.telegram.getD ⟨none, none, none, none⟩

/-- `tg_cooldown = clamp_int(tg.get("cooldown_seconds"), 5, 3600, 60)`
(monitor.py line 230). -/
def resolvedCooldown (cfg : RawConfig) : ℤ :=
  clamp_int (resolvedTelegram cfg).cooldown_seconds 5 3600 60

/-! Projection lemmas: each field of `stepTarget`'s result, read off the
definition. -/

theorem stepTarget_item_status (cfg : Config) (name host : String)
    (prev : Option StateEntry) (inp : CycleInput) :
    (stepTarget cfg name host prev inp).item.status
      = effectiveStatusOf (classify_status inp.ok inp.latency cfg.degraded_ms)
          (updatedFailures inp.ok (prevFailures prev)) cfg.fail_threshold := rfl

theorem stepTarget_item_failures (cfg : Config) (name host : String)
    (prev : Option StateEntry) (inp : CycleInput) :
    (stepTarget cfg name host prev inp).item.failures
      = updatedFailures inp.ok (prevFailures prev) := rfl

theorem stepTarget_newEntry_failures (cfg : Config) (name host : String)
    (prev : Option StateEntry) (inp : CycleInput) :
    (stepTarget cfg name host prev inp).newEntry.failures
      = some (updatedFailures inp.ok (prevFailures prev)) := rfl

theorem stepTarget_alert_eq (cfg : Config) (name host : String)
    (prev : Option StateEntry) (inp : CycleInput) :
    (stepTarget cfg name host prev inp).alert
      = (if ((stepTarget cfg name host prev inp).item.status != prevStatus prev)
            && (prevStatus prev != "UNKNOWN")
         then some ⟨inp.now_iso, name, host, prevStatus prev,
                    (stepTarget cfg name host prev inp).item.status⟩
         else none) := rfl

theorem stepTarget_dispatched_eq (cfg : Config) (name host : String)
    (prev : Option StateEntry) (inp : CycleInput) :
    (stepTarget cfg name host prev inp).dispatched
      = (((stepTarget cfg name host prev inp).item.status != prevStatus prev)
          && (prevStatus prev != "UNKNOWN")
          && cfg.tg_enabled && (cfg.tg_token != "") && (cfg.tg_chat != "")
          && decide (inp.now_ts - prevLastAlert prev ≥ (cfg.tg_cooldown : ℚ))) := rfl

theorem stepTarget_newEntry_last_alert (cfg : Config) (name host : String)
    (prev : Option StateEntry) (inp : CycleInput) :
    (stepTarget cfg name host prev inp).newEntry.last_alert_ts
      = some (if (stepTarget cfg name host prev inp).dispatched then inp.now_ts
              else prevLastAlert prev) := rfl

/-- The flap-damping override produces DOWN exactly when the raw status is
DOWN and the updated failure count has reached the threshold. -/
theorem effectiveStatusOf_eq_DOWN_iff (c : String) (f t : ℤ) :
    effectiveStatusOf c f t = "DOWN" ↔ (c = "DOWN" ∧ t ≤ f) := by
  unfold effectiveStatusOf
  split_ifs with h
  · constructor
    · intro hD
      exact absurd hD (by decide)
    · intro hct
      omega
  · constructor
    · intro hc
      refine ⟨hc, ?_⟩
      by_contra hlt
      exact h ⟨hc, by omega⟩
    · intro hct
      exact hct.1

/-- C1: in every cycle the effective status is DOWN exactly when the raw
classification is DOWN and the updated consecutive-failure count has
reached `fail_threshold`; a raw DOWN below the threshold is reported
DEGRADED. With threshold 3, three consecutive unreachable samples starting
from no prior state yield DEGRADED, DEGRADED, DOWN in order. -/
theorem effective_down_iff_threshold (cfg : Config) (name host : String)
    (prev : Option StateEntry) (inp : CycleInput) :
    ((stepTarget cfg name host prev inp).item.status = "DOWN" ↔
      (classify_status inp.ok inp.latency cfg.degraded_ms = "DOWN" ∧
        cfg.fail_threshold ≤ updatedFailures inp.ok (prevFailures prev))) ∧
    ((classify_status inp.ok inp.latency cfg.degraded_ms = "DOWN" ∧
        updatedFailures inp.ok (prevFailures prev) < cfg.fail_threshold) →
      (stepTarget cfg name host prev inp).item.status = "DEGRADED") ∧
    (let c : Config := ⟨120, 3, false, "", "", 60⟩
     let r1 := stepTarget c "n" "h" none ⟨false, none, "t1", 0⟩
     let r2 := stepTarget c "n" "h" (some r1.newEntry) ⟨false, none, "t2", 3⟩
     let r3 := stepTarget c "n" "h" (some r2.newEntry) ⟨false, none, "t3", 6⟩
     r1.item.status = "DEGRADED" ∧ r2.item.status = "DEGRADED" ∧
       r3.item.status = "DOWN") := by
  refine ⟨?_, ?_, by decide⟩
  · rw [stepTarget_item_status, effectiveStatusOf_eq_DOWN_iff]
  · intro h
    rw [stepTarget_item_status]
    unfold effectiveStatusOf
    rw [if_pos h]

/-- Witness for C1: one raw-DOWN cycle below the threshold, reported
DEGRADED. -/
theorem effective_down_iff_threshold_witness :
    (classify_status false none 120 = "DOWN" ∧
      updatedFailures false (prevFailures none) < 3) ∧
    (stepTarget ⟨120, 3, false, "", "", 60⟩ "n" "h" none
        ⟨false, none, "t1", 0⟩).item.status = "DEGRADED" :=
  ⟨by decide,
   (effective_down_iff_threshold ⟨120, 3, false, "", "", 60⟩ "n" "h" none
     ⟨false, none, "t1", 0⟩).2.1 (by decide)⟩

/-- C3: the consecutive-failure counter the cycle records (history entry
and state entry alike) is exactly 0 after any reachable sample, whatever
the prior count was, and the prior count plus one after any unreachable
sample. -/
theorem failures_reset_and_increment (cfg : Config) (name host : String)
    (prev : Option StateEntry) (inp : CycleInput) :
    (inp.ok = true →
      (stepTarget cfg name host prev inp).item.failures = 0 ∧
      (stepTarget cfg name host prev inp).newEntry.failures = some 0) ∧
    (inp.ok = false →
      (stepTarget cfg name host prev inp).item.failures = prevFailures prev + 1 ∧
      (stepTarget cfg name host prev inp).newEntry.failures
        = some (prevFailures prev + 1)) := by
  constructor <;> intro h <;>
    rw [stepTarget_item_failures, stepTarget_newEntry_failures] <;>
    simp [updatedFailures, h]

/-- Witness for C3: a reachable sample resets a count of 7 to 0, an
unreachable one turns 7 into 8. -/
theorem failures_reset_and_increment_witness :
    ((stepTarget ⟨120, 2, false, "", "", 60⟩ "n" "h"
        (some ⟨some "DOWN", some 7, none, none⟩) ⟨true, none, "t", 0⟩).item.failures = 0 ∧
      (stepTarget ⟨120, 2, false, "", "", 60⟩ "n" "h"
        (some ⟨some "DOWN", some 7, none, none⟩) ⟨true, none, "t", 0⟩).newEntry.failures
        = some 0) ∧
    ((stepTarget ⟨120, 2, false, "", "", 60⟩ "n" "h"
        (some ⟨some "DOWN", some 7, none, none⟩) ⟨false, none, "t", 0⟩).item.failures
        = prevFailures (some ⟨some "DOWN", some 7, none, none⟩) + 1 ∧
      (stepTarget ⟨120, 2, false, "", "", 60⟩ "n" "h"
        (some ⟨some "DOWN", some 7, none, none⟩) ⟨false, none, "t", 0⟩).newEntry.failures
        = some (prevFailures (some ⟨some "DOWN", some 7, none, none⟩) + 1)) :=
  ⟨(failures_reset_and_increment ⟨120, 2, false, "", "", 60⟩ "n" "h"
      (some ⟨some "DOWN", some 7, none, none⟩) ⟨true, none, "t", 0⟩).1 rfl,
   (failures_reset_and_increment ⟨120, 2, false, "", "", 60⟩ "n" "h"
      (some ⟨some "DOWN", some 7, none, none⟩) ⟨false, none, "t", 0⟩).2 rfl⟩

/-- C4: no alert record is appended on a target's first observed cycle
(prior entry absent, so the prior effective status reads UNKNOWN), and in
general an alert record is appended exactly when the new effective status
differs from the prior one and the prior one is not UNKNOWN. -/
theorem alert_only_on_known_transition (cfg : Config) (name host : String)
    (prev : Option StateEntry) (inp : CycleInput) :
    ((stepTarget cfg name host none inp).alert = none) ∧
    ((stepTarget cfg name host prev inp).alert.isSome = true ↔
      ((stepTarget cfg name host prev inp).item.status ≠ prevStatus prev ∧
        prevStatus prev ≠ "UNKNOWN")) := by
  constructor
  · rw [stepTarget_alert_eq]
    simp [prevStatus]
  · have hcond : (((stepTarget cfg name host prev inp).item.status != prevStatus prev)
        && (prevStatus prev != "UNKNOWN")) = true ↔
        ((stepTarget cfg name host prev inp).item.status ≠ prevStatus prev ∧
          prevStatus prev ≠ "UNKNOWN") := by
      simp [Bool.and_eq_true, bne_iff_ne]
    rw [stepTarget_alert_eq, ← hcond]
    rcases hb : (((stepTarget cfg name host prev inp).item.status != prevStatus prev)
        && (prevStatus prev != "UNKNOWN")) with _ | _ <;> simp [hb]

/-- Witness for C4: a first-ever cycle whose classification is DOWN
appends no alert record. -/
theorem alert_only_on_known_transition_witness :
    (stepTarget ⟨120, 1, false, "", "", 60⟩ "n" "h" none
      ⟨false, none, "t", 0⟩).alert = none :=
  (alert_only_on_known_transition ⟨120, 1, false, "", "", 60⟩ "n" "h" none
    ⟨false, none, "t", 0⟩).1

/-- C5: `classify_status` returns DOWN whenever the sample is unreachable,
UP on a reachable sample with unknown latency for any threshold, DEGRADED
on a reachable sample whose latency is at least the threshold (the
boundary is inclusive: latency equal to the threshold gives DEGRADED,
threshold minus one gives UP), and UP otherwise. -/
theorem classify_status_spec (d : ℤ) (lat : Option ℚ) (l : ℚ) :
    classify_status false lat d = "DOWN" ∧
    classify_status true none d = "UP" ∧
    ((d : ℚ) ≤ l → classify_status true (some l) d = "DEGRADED") ∧
    (l < (d : ℚ) → classify_status true (some l) d = "UP") ∧
    classify_status true (some ((d : ℚ))) d = "DEGRADED" ∧
    classify_status true (some ((d : ℚ) - 1)) d = "UP" := by
  refine ⟨rfl, rfl, ?_, ?_, ?_, ?_⟩
  · intro h
    simp only [classify_status, ge_iff_le]
    rw [if_neg (by decide), if_pos h]
  · intro h
    simp only [classify_status, ge_iff_le]
    rw [if_neg (by decide), if_neg (not_le.mpr h)]
  · simp only [classify_status, ge_iff_le]
    rw [if_neg (by decide), if_pos (le_refl _)]
  · simp only [classify_status, ge_iff_le]
    rw [if_neg (by decide), if_neg (not_le.mpr (by linarith))]

/-- Witness for C5: threshold 120, latency 120 is DEGRADED and latency
119 is UP. -/
theorem classify_status_spec_witness :
    ((120 : ℚ) ≤ (120 : ℚ) ∧ classify_status true (some 120) 120 = "DEGRADED") ∧
    ((119 : ℚ) < (120 : ℚ) ∧ classify_status true (some 119) 120 = "UP") :=
  ⟨⟨le_refl _, (classify_status_spec 120 none 120).2.2.1 (by norm_num)⟩,
   ⟨by norm_num, (classify_status_spec 120 none 119).2.2.2.1 (by norm_num)⟩⟩

/-- C10: in the record a cycle writes (the snapshot/history item and the
state entry share these fields), an effective status of UP forces a
failure count of 0: UP only arises from a reachable sample, and a
reachable sample resets the counter before the record is built. -/
theorem up_implies_zero_failures (cfg : Config) (name host : String)
    (prev : Option StateEntry) (inp : CycleInput)
    (h : (stepTarget cfg name host prev inp).item.status = "UP") :
    (stepTarget cfg name host prev inp).item.failures = 0 ∧
    (stepTarget cfg name host prev inp).newEntry.failures = some 0 := by
  rw [stepTarget_item_status] at h
  have hok : inp.ok = true := by
    rcases hcase : inp.ok with _ | _
    · rw [hcase] at h
      unfold classify_status at h
      unfold effectiveStatusOf at h
      split_ifs at h <;> simp_all
    · rfl
  rw [stepTarget_item_failures, stepTarget_newEntry_failures]
  simp [updatedFailures, hok]

/-- Witness for C10: a reachable low-latency cycle reports UP with zero
failures. -/
theorem up_implies_zero_failures_witness :
    (stepTarget ⟨120, 2, false, "", "", 60⟩ "n" "h"
        (some ⟨some "DOWN", some 7, none, none⟩) ⟨true, some 5, "t", 0⟩).item.status = "UP" ∧
    (stepTarget ⟨120, 2, false, "", "", 60⟩ "n" "h"
        (some ⟨some "DOWN", some 7, none, none⟩) ⟨true, some 5, "t", 0⟩).item.failures = 0 ∧
    (stepTarget ⟨120, 2, false, "", "", 60⟩ "n" "h"
        (some ⟨some "DOWN", some 7, none, none⟩) ⟨true, some 5, "t", 0⟩).newEntry.failures
      = some 0 := by
  have hst : (stepTarget ⟨120, 2, false, "", "", 60⟩ "n" "h"
      (some ⟨some "DOWN", some 7, none, none⟩) ⟨true, some 5, "t", 0⟩).item.status = "UP" := by
    rw [stepTarget_item_status]
    have : classify_status true (some 5) 120 = "UP" := by
      simp only [classify_status, ge_iff_le]
      rw [if_neg (by decide), if_neg (by norm_num)]
    rw [this]
    decide
  have hz := up_implies_zero_failures ⟨120, 2, false, "", "", 60⟩ "n" "h"
    (some ⟨some "DOWN", some 7, none, none⟩) ⟨true, some 5, "t", 0⟩ hst
  exact ⟨hst, hz.1, hz.2⟩

/-- C2: with the notifier configured (enabled, token and chat id
non-empty), a dispatch happens exactly when an effective-status transition
exists and `now - last_alert_ts >= cooldown` (an absent `last_alert_ts`
reads as 0, and the comparison is inclusive); the stored `last_alert_ts`
becomes `now` on a dispatch and is unchanged otherwise. With cooldown 60,
transitions at t=1000, t=1030 and t=1061 dispatch, skip, dispatch. -/
theorem alert_cooldown_gating (cfg : Config) (name host : String)
    (prev : Option StateEntry) (inp : CycleInput)
    (he : cfg.tg_enabled = true) (ht : cfg.tg_token ≠ "") (hc : cfg.tg_chat ≠ "") :
    ((stepTarget cfg name host prev inp).dispatched = true ↔
      (((stepTarget cfg name host prev inp).item.status ≠ prevStatus prev ∧
         prevStatus prev ≠ "UNKNOWN") ∧
        (cfg.tg_cooldown : ℚ) ≤ inp.now_ts - prevLastAlert prev)) ∧
    ((stepTarget cfg name host prev inp).newEntry.last_alert_ts
      = some (if (stepTarget cfg name host prev inp).dispatched then inp.now_ts
              else prevLastAlert prev)) ∧
    (prevLastAlert none = 0) ∧
    (let c2 : Config := ⟨120, 1, true, "tok", "chat", 60⟩
     let s1 := stepTarget c2 "n" "h" (some ⟨some "UP", some 0, some "s", none⟩)
       ⟨false, none, "t1", 1000⟩
     let s2 := stepTarget c2 "n" "h" (some s1.newEntry) ⟨true, some 5, "t2", 1030⟩
     let s3 := stepTarget c2 "n" "h" (some s2.newEntry) ⟨false, none, "t3", 1061⟩
     s1.dispatched = true ∧ s2.dispatched = false ∧ s3.dispatched = true ∧
       s1.item.status = "DOWN" ∧ s2.item.status = "UP" ∧ s3.item.status = "DOWN" ∧
       s1.newEntry.last_alert_ts = some 1000 ∧
       s2.newEntry.last_alert_ts = some 1000) := by
  refine ⟨?_, stepTarget_newEntry_last_alert cfg name host prev inp, rfl, ?_⟩
  · rw [stepTarget_dispatched_eq]
    simp only [Bool.and_eq_true, bne_iff_ne, ne_eq, decide_eq_true_eq, ge_iff_le,
      he, ht, hc, not_false_eq_true, and_true]
  · simp +decide [stepTarget, prevStatus, prevFailures, prevLastAlert, prevLastSeen,
      classify_status, updatedFailures, effectiveStatusOf]
    norm_num

/-- Witness for C2: the configured-notifier hypotheses hold at the
concrete config, and a transition 30 seconds after a dispatch with
cooldown 60 does not dispatch. -/
theorem alert_cooldown_gating_witness :
    ("tok" : String) ≠ "" ∧ ("chat" : String) ≠ "" ∧
    ((stepTarget ⟨120, 1, true, "tok", "chat", 60⟩ "n" "h"
        (some ⟨some "DOWN", some 1, some "s", some 1000⟩)
        ⟨true, some 5, "t2", 1030⟩).dispatched = true ↔
      (((stepTarget ⟨120, 1, true, "tok", "chat", 60⟩ "n" "h"
          (some ⟨some "DOWN", some 1, some "s", some 1000⟩)
          ⟨true, some 5, "t2", 1030⟩).item.status
            ≠ prevStatus (some ⟨some "DOWN", some 1, some "s", some 1000⟩) ∧
        prevStatus (some ⟨some "DOWN", some 1, some "s", some 1000⟩) ≠ "UNKNOWN") ∧
        ((60 : ℤ) : ℚ) ≤ (1030 : ℚ) -
          prevLastAlert (some ⟨some "DOWN", some 1, some "s", some 1000⟩))) :=
  ⟨by decide, by decide,
   (alert_cooldown_gating ⟨120, 1, true, "tok", "chat", 60⟩ "n" "h"
      (some ⟨some "DOWN", some 1, some "s", some 1000⟩)
      ⟨true, some 5, "t2", 1030⟩ rfl (by decide) (by decide)).1⟩

/-- C6: a missing or unparseable state file, or one whose top-level value
is not an object, loads as the empty state (the load is total, never an
error); every host then reads as UNKNOWN with zero failures. A well-formed
persisted entry is found by host and supplies its stored status and
failure count, and an unreachable cycle continues counting from the
persisted count. -/
theorem state_load_and_restart (host : String) (e : StateEntry) (s : String)
    (f : ℤ) (cfg : Config) (name : String) (inp : CycleInput)
    (hs : e.status = some s) (hf : e.failures = some f) :
    (loadState none = [] ∧ loadState (some none) = []) ∧
    (prevStatus (getPrev (loadState none) host) = "UNKNOWN" ∧
      prevFailures (getPrev (loadState none) host) = 0) ∧
    (getPrev [(host, e)] host = some e) ∧
    (prevStatus (some e) = s ∧ prevFailures (some e) = f) ∧
    (inp.ok = false →
      (stepTarget cfg name host (some e) inp).item.failures = f + 1) := by
  refine ⟨⟨rfl, rfl⟩, ⟨rfl, rfl⟩, ?_, ⟨?_, ?_⟩, ?_⟩
  · simp [getPrev, List.lookup]
  · simp [prevStatus, hs]
  · simp [prevFailures, hf]
  · intro h
    rw [stepTarget_item_failures]
    simp [updatedFailures, h, prevFailures, hf]

/-- Witness for C6: a persisted DEGRADED entry with 2 failures is looked
up and an unreachable cycle advances it to 3 failures. -/
theorem state_load_and_restart_witness :
    ((⟨some "DEGRADED", some 2, none, none⟩ : StateEntry).status = some "DEGRADED") ∧
    ((⟨some "DEGRADED", some 2, none, none⟩ : StateEntry).failures = some 2) ∧
    (getPrev [("8.8.8.8", ⟨some "DEGRADED", some 2, none, none⟩)] "8.8.8.8"
      = some ⟨some "DEGRADED", some 2, none, none⟩) ∧
    ((stepTarget ⟨120, 3, false, "", "", 60⟩ "Google DNS" "8.8.8.8"
        (some ⟨some "DEGRADED", some 2, none, none⟩)
        ⟨false, none, "t", 0⟩).item.failures = 2 + 1) :=
  ⟨rfl, rfl,
   (state_load_and_restart "8.8.8.8" ⟨some "DEGRADED", some 2, none, none⟩
      "DEGRADED" 2 ⟨120, 3, false, "", "", 60⟩ "Google DNS"
      ⟨false, none, "t", 0⟩ rfl rfl).2.2.1,
   (state_load_and_restart "8.8.8.8" ⟨some "DEGRADED", some 2, none, none⟩
      "DEGRADED" 2 ⟨120, 3, false, "", "", 60⟩ "Google DNS"
      ⟨false, none, "t", 0⟩ rfl rfl).2.2.2.2 rfl⟩

/-- C7 counterexample: `normalize_targets` does not deduplicate hosts —
two configured entries with host "dup" both survive normalization, so the
host list of the normalized targets is not unique. -/
theorem normalize_targets_duplicate_hosts :
    ¬ ((normalize_targets (some [some ⟨some "A", some "dup"⟩,
        some ⟨some "B", some "dup"⟩])).map Target.host).Nodup := by
  decide

/-- C7 amended: every target produced by normalization has a non-empty
(stripped) host, the name defaults to the stripped host when the
configured name strips to empty or is absent, and a non-list `targets`
value normalizes to the empty list; hosts are, however, not deduplicated,
so the normalized list can repeat a host. -/
theorem normalize_targets_amended (ts : List (Option RawTarget)) (t : Target)
    (rt : RawTarget) (hmem : t ∈ normalize_targets (some ts))
    (hhost : pyStrip (rt.host.getD "") ≠ "")
    (hblank : pyStrip (rt.name.getD "") = "") :
    t.host ≠ "" ∧
    normalizeEntry (some rt)
      = some ⟨pyStrip (rt.host.getD ""), pyStrip (rt.host.getD "")⟩ ∧
    normalize_targets none = [] := by
  refine ⟨?_, ?_, rfl⟩
  · have hmem2 : t ∈ ts.filterMap normalizeEntry := hmem
    rcases List.mem_filterMap.mp hmem2 with ⟨a, _, ha⟩
    cases a with
    | none => simp [normalizeEntry] at ha
    | some rt0 =>
      simp only [normalizeEntry] at ha
      by_cases h0 : pyStrip (rt0.host.getD "") = ""
      · rw [if_pos h0] at ha
        cases ha
      · rw [if_neg h0] at ha
        have := Option.some.inj ha
        rw [← this]
        exact h0
  · simp only [normalizeEntry]
    rw [if_neg hhost]
    simp [pyOrString, hblank]

/-- Witness for C7 (amended): a target with a blank name and a padded
duplicate-ready host normalizes to host as both name and host. -/
theorem normalize_targets_amended_witness :
    ((⟨"8.8.8.8", "8.8.8.8"⟩ : Target)
        ∈ normalize_targets (some [some ⟨some "  ", some " 8.8.8.8 "⟩]) ∧
      pyStrip " 8.8.8.8 " ≠ "" ∧ pyStrip "  " = "") ∧
    (⟨"8.8.8.8", "8.8.8.8"⟩ : Target).host ≠ "" ∧
    normalizeEntry (some ⟨some "  ", some " 8.8.8.8 "⟩)
      = some ⟨pyStrip " 8.8.8.8 ", pyStrip " 8.8.8.8 "⟩ :=
  ⟨⟨by decide, by decide, by decide⟩,
   (normalize_targets_amended [some ⟨some "  ", some " 8.8.8.8 "⟩]
      ⟨"8.8.8.8", "8.8.8.8"⟩ ⟨some "  ", some " 8.8.8.8 "⟩
      (by decide) (by decide) (by decide)).1,
   (normalize_targets_amended [some ⟨some "  ", some " 8.8.8.8 "⟩]
      ⟨"8.8.8.8", "8.8.8.8"⟩ ⟨some "  ", some " 8.8.8.8 "⟩
      (by decide) (by decide) (by decide)).2.1⟩

/-- C8: every recognized numeric option resolves within its stated bounds
whatever the config file held; a parseable out-of-range value clamps to
the violated bound, an unparseable value falls back to the in-range
default, and a config whose top level is not an object (or cannot be read)
resolves entirely to the defaults. -/
theorem config_clamping (x : Option (Option RawConfig)) (opt : Option ℤ)
    (lo hi d v : ℤ) (h1 : lo ≤ d) (h2 : d ≤ hi) :
    (1 ≤ resolvedInterval (theConfig x) ∧ resolvedInterval (theConfig x) ≤ 3600) ∧
    (200 ≤ resolvedTimeout (theConfig x) ∧ resolvedTimeout (theConfig x) ≤ 10000) ∧
    (1 ≤ resolvedDegraded (theConfig x) ∧ resolvedDegraded (theConfig x) ≤ 20000) ∧
    (1 ≤ resolvedFailThreshold (theConfig x) ∧
      resolvedFailThreshold (theConfig x) ≤ 20) ∧
    (5 ≤ resolvedCooldown (theConfig x) ∧ resolvedCooldown (theConfig x) ≤ 3600) ∧
    (lo ≤ clamp_int opt lo hi d ∧ clamp_int opt lo hi d ≤ hi) ∧
    (v < lo → clamp_int (some v) lo hi d = lo) ∧
    (hi < v → clamp_int (some v) lo hi d = hi) ∧
    (clamp_int none lo hi d = d) ∧
    (theConfig none = DEFAULT_CONFIG ∧ theConfig (some none) = DEFAULT_CONFIG) ∧
    (resolvedInterval DEFAULT_CONFIG = 3 ∧ resolvedTimeout DEFAULT_CONFIG = 1200 ∧
      resolvedDegraded DEFAULT_CONFIG = 120 ∧
      resolvedFailThreshold DEFAULT_CONFIG = 2 ∧
      resolvedCooldown DEFAULT_CONFIG = 60) := by
  have hb : ∀ (o : Option ℤ) (a b c : ℤ), a ≤ c → c ≤ b →
      a ≤ clamp_int o a b c ∧ clamp_int o a b c ≤ b := by
    intro o a b c hac hcb
    cases o <;> simp [clamp_int] <;> omega
  refine ⟨hb _ 1 3600 3 (by norm_num) (by norm_num),
    hb _ 200 10000 1200 (by norm_num) (by norm_num),
    hb _ 1 20000 120 (by norm_num) (by norm_num),
    hb _ 1 20 2 (by norm_num) (by norm_num),
    hb _ 5 3600 60 (by norm_num) (by norm_num),
    hb opt lo hi d h1 h2, ?_, ?_, rfl, ⟨rfl, rfl⟩, by decide⟩
  · intro hv
    simp [clamp_int]
    omega
  · intro hv
    simp [clamp_int]
    omega

/-- Witness for C8: a failed config read resolves every option to its
default, an out-of-range interval of 0 clamps to 1. -/
theorem config_clamping_witness :
    ((1 : ℤ) ≤ 3 ∧ (3 : ℤ) ≤ 3600) ∧
    (1 ≤ resolvedInterval (theConfig none) ∧
      resolvedInterval (theConfig none) ≤ 3600) ∧
    ((0 : ℤ) < 1 ∧ clamp_int (some 0) 1 3600 3 = 1) :=
  ⟨⟨by norm_num, by norm_num⟩,
   (config_clamping none (some 0) 1 3600 3 0 (by norm_num) (by norm_num)).1,
   ⟨by norm_num,
    (config_clamping none (some 0) 1 3600 3 0 (by norm_num)
      (by norm_num)).2.2.2.2.2.2.1 (by norm_num)⟩⟩

/-- C9: the Telegram notifier wraps its whole body in a bare
try/except-pass, so whatever the outcome of the HTTP send, the call
returns successfully: no failure is propagated, surfaced or retried. -/
theorem telegram_send_never_propagates (o : Except String Unit) :
    telegram_send o = Except.ok () := by
  cases o with
  | ok u =>
    cases u
    rfl
  | error e => rfl

end NetMonitor
